import Mathlib

/-!
Verification development for the `elevenlabs_ttv` Rust crate: a shallow
embedding of the request builders (`src/lib.rs`), the error type and its
`From<reqwest::Error>` classifier (`src/error.rs`), the request/response
data model and its serde serialization (`src/types.rs`), and the
response-handling logic of the two execute methods, together with proofs
about defaulting, framing, serialization and error classification.

Machine integers of the source (`u16`, `u32`, `u64`) are modelled as `Nat`
(the code only stores and compares them; no arithmetic, hence no overflow),
`f32`/`f64` as `Float` (pure pass-through data, no arithmetic), and fallible
operations as `Option`/`Except`.
-/

namespace ElevenLabsTTV

/-- Minimal model of a JSON value, sufficient for the values serde produces
from the request structs of `src/types.rs`. -/
inductive Json where
  | null
  | jstr (s : String)
  | jbool (b : Bool)
  | jnat (n : Nat)
  | jfloat (x : Float)

/-- serde's derived serialization of an `Option<String>` field that carries no
`skip` attribute: `None` serializes as JSON `null`, `Some s` as the string. -/
def optStr : Option String → Json
  | none => Json.null
  | some s => Json.jstr s

/-- serde's derived serialization of a plain `Option<bool>` field. -/
def optBool : Option Bool → Json
  | none => Json.null
  | some b => Json.jbool b

/-- serde's derived serialization of a plain `Option<u32>` field. -/
def optNat : Option Nat → Json
  | none => Json.null
  | some n => Json.jnat n

/-- serde's derived serialization of a plain `Option<f32>` field. -/
def optFloat : Option Float → Json
  | none => Json.null
  | some x => Json.jfloat x

/-- Model of a `reqwest::Error` value as the crate can observe it:
`status` is `error.status()` and `errText` is `error.to_string()`.
`retryAfter` records the Retry-After value the server supplied on the
underlying exchange, when any; `reqwest::Error` exposes no accessor for
response headers, so the `From` impl in `src/error.rs` cannot read this
component (its own comment says "Could be enhanced to parse Retry-After
header"). -/
structure ReqwestError where
  status : Option Nat
  errText : String
  retryAfter : Option Nat
deriving DecidableEq

/-- The error enum `ElevenLabsTTVError` from `src/error.rs`.
`RequestError` and `ParseError` wrap the underlying `reqwest::Error`;
`retry_after` is the `Option<u64>` seconds field. -/
inductive ElevenLabsTTVError where
  | RequestError (e : ReqwestError)
  | ApiError (status : Nat) (message : String)
  | ParseError (e : ReqwestError)
  | AuthenticationError (msg : String)
  | RateLimitError (retry_after : Option Nat) (message : String)
  | QuotaExceededError (msg : String)
  | ValidationError (msg : String)
deriving DecidableEq

/-- `impl From<reqwest::Error> for ElevenLabsTTVError` (`src/error.rs`,
lines 69-93): classification by the status carried on the error, with the
branches in source order 401, 429, 402, catch-all; an error without a
status becomes `RequestError`. The 429 branch hardcodes
`retry_after: None` and the message `"Too many requests"`. -/
def ElevenLabsTTVError.fromReqwestError (error : ReqwestError) : ElevenLabsTTVError :=
  match error.status with
  | some status_code =>
    if status_code = 401 then ElevenLabsTTVError.AuthenticationError "Invalid API key"
    else if status_code = 429 then ElevenLabsTTVError.RateLimitError none "Too many requests"
    else if status_code = 402 then ElevenLabsTTVError.QuotaExceededError "Insufficient credits"
    else ElevenLabsTTVError.ApiError status_code error.errText
  | none => ElevenLabsTTVError.RequestError error

/-- Request body for Text-to-Voice: Design Voice (`src/types.rs`, lines 6-68). -/
structure TTVDesignVoiceRequest where
  voice_description : String
  output_format : Option String
  model_id : Option String
  text : Option String
  auto_generate_text : Option Bool
  loudness : Option Float
  seed : Option Nat
  guidance_scale : Option Nat
  stream_previews : Option Bool
  remixing_session_id : Option String
  remixing_session_iteration_id : Option String
  quality : Option Float
  reference_audio_base64 : Option String
  prompt_strength : Option Float

/-- serde's derived serialization of `TTVDesignVoiceRequest`: fields in
declaration order; `output_format` carries `#[serde(skip_serializing)]` and
is omitted; every other `Option` field has no skip attribute, so an unset
field serializes as `null`. -/
def TTVDesignVoiceRequest.serialize (r : TTVDesignVoiceRequest) : List (String × Json) :=
  [("voice_description", Json.jstr r.voice_description),
   ("model_id", optStr r.model_id),
   ("text", optStr r.text),
   ("auto_generate_text", optBool r.auto_generate_text),
   ("loudness", optFloat r.loudness),
   ("seed", optNat r.seed),
   ("guidance_scale", optNat r.guidance_scale),
   ("stream_previews", optBool r.stream_previews),
   ("remixing_session_id", optStr r.remixing_session_id),
   ("remixing_session_iteration_id", optStr r.remixing_session_iteration_id),
   ("quality", optFloat r.quality),
   ("reference_audio_base64", optStr r.reference_audio_base64),
   ("prompt_strength", optFloat r.prompt_strength)]

/-- Request body for Text-to-Voice: Create Voice (`src/types.rs`, lines 70-87). -/
structure TTVCreateVoiceRequest where
  voice_name : String
  voice_description : String
  generated_voice_id : String
  labels : Option String
  played_not_selected_voice_ids : Option String

/-- serde's derived serialization of `TTVCreateVoiceRequest`: fields in
declaration order, no skip attributes, so the two `Option` fields serialize
as `null` when unset. -/
def TTVCreateVoiceRequest.serialize (r : TTVCreateVoiceRequest) : List (String × Json) :=
  [("voice_name", Json.jstr r.voice_name),
   ("voice_description", Json.jstr r.voice_description),
   ("generated_voice_id", Json.jstr r.generated_voice_id),
   ("labels", optStr r.labels),
   ("played_not_selected_voice_ids", optStr r.played_not_selected_voice_ids)]

/-- One voice preview of the Design Voice response (`src/types.rs`, lines 97-109). -/
structure TTVDesignVoiceResponseVoicePreview where
  audio_base_64 : String
  generated_voice_id : String
  media_type : String
  duration_secs : Float
  language : Option String

/-- The Design Voice response (`src/types.rs`, lines 89-95). -/
structure TTVDesignVoiceResponse where
  previews : List TTVDesignVoiceResponseVoicePreview
  text : String

/-- An utterance interval (`src/types.rs`). -/
structure Utterance where
  start : Float
  stop : Float

/-- A separated speaker (`src/types.rs`). `utterances` as in the source. -/
structure Speaker where
  speaker_id : String
  duration_secs : Float
  utterances : Option (List Utterance)

/-- Speaker-separation status enum (`src/types.rs`). -/
inductive SeparationStatus where
  | NotStarted
  | Pending
  | Completed
  | Failed

/-- Speaker separation record (`src/types.rs`); the `HashMap<String, Speaker>`
is modelled as an association list. -/
structure SpeakerSeparation where
  voice_id : String
  sample_id : String
  status : SeparationStatus
  speakers : Option (List (String × Speaker))
  selected_speaker_ids : Option (List String)

/-- A voice sample record (`src/types.rs`). -/
structure Sample where
  sample_id : Option String
  file_name : Option String
  mime_type : Option String
  size_bytes : Option Int
  hash : Option String
  duration_secs : Option Float
  remove_background_noise : Option Bool
  has_isolated_audio : Option Bool
  has_isolated_audio_preview : Option Bool
  speaker_separation : Option SpeakerSeparation
  trim_start : Option Int
  trim_end : Option Int

/-- Voice category enum (`src/types.rs`). -/
inductive VoiceCategory where
  | Generated
  | Cloned
  | Premade
  | Professional
  | Famous
  | HighQuality

/-- Fine-tuning state enum (`src/types.rs`). -/
inductive FineTuningState where
  | NotStarted
  | Queued
  | FineTuning
  | FineTuned
  | Failed
  | Delayed

/-- A verification recording (`src/types.rs`). -/
structure Recording where
  recording_id : String
  mime_type : String
  size_bytes : Int
  upload_date_unix : Int
  transcription : String

/-- A verification attempt (`src/types.rs`). -/
structure VerificationAttempt where
  text : String
  date_unix : Int
  accepted : Bool
  similarity : Float
  levenshtein_distance : Float
  recording : Option Recording

/-- A manual-verification file (`src/types.rs`). -/
structure VerificationFile where
  file_id : String
  file_name : String
  mime_type : String
  size_bytes : Int
  upload_date_unix : Int

/-- Manual verification record (`src/types.rs`). -/
structure ManualVerification where
  extra_text : String
  request_time_unix : Int
  files : List VerificationFile

/-- Fine-tuning record (`src/types.rs`); maps modelled as association lists
and the `serde_json::Value` field as `Json`. -/
structure FineTuning where
  is_allowed_to_fine_tune : Option Bool
  state : Option (List (String × FineTuningState))
  verification_failures : Option (List String)
  verification_attempts_count : Option Int
  manual_verification_requested : Option Bool
  language : Option String
  progress : Option (List (String × Float))
  message : Option (List (String × String))
  dataset_duration_seconds : Option Float
  verification_attempts : Option (List VerificationAttempt)
  slice_ids : Option (List String)
  manual_verification : Option ManualVerification
  max_verification_attempts : Option Int
  next_max_verification_attempts_reset_unix_ms : Option Int
  finetuning_state : Option Json

/-- Voice settings record (`src/types.rs`). -/
structure VoiceSettings where
  stability : Option Float
  use_speaker_boost : Option Bool
  similarity_boost : Option Float
  style : Option Float
  speed : Option Float

/-- Sharing status enum (`src/types.rs`). -/
inductive SharingStatus where
  | Enabled
  | Disabled
  | Copied
  | CopiedDisabled

/-- Review status enum (`src/types.rs`). -/
inductive ReviewStatus where
  | NotRequested
  | Pending
  | Declined
  | Allowed
  | AllowedWithChanges

/-- Moderation check record (`src/types.rs`). -/
structure ModerationCheck where
  date_checked_unix : Option Int
  name_value : Option String
  name_check : Option Bool
  description_value : Option String
  description_check : Option Bool
  sample_ids : Option (List String)
  sample_checks : Option (List Float)
  captcha_ids : Option (List String)
  captcha_checks : Option (List Float)

/-- Resource type enum (`src/types.rs`). -/
inductive ResourceType where
  | Read
  | Collection

/-- Reader restriction record (`src/types.rs`). -/
structure ReaderRestriction where
  resource_type : ResourceType
  resource_id : String

/-- Voice sharing record (`src/types.rs`). -/
structure VoiceSharing where
  status : Option SharingStatus
  history_item_sample_id : Option String
  date_unix : Option Int
  whitelisted_emails : Option (List String)
  public_owner_id : Option String
  original_voice_id : Option String
  financial_rewards_enabled : Option Bool
  free_users_allowed : Option Bool
  live_moderation_enabled : Option Bool
  rate : Option Float
  fiat_rate : Option Float
  notice_period : Option Int
  disable_at_unix : Option Int
  voice_mixing_allowed : Option Bool
  featured : Option Bool
  category : Option VoiceCategory
  reader_app_enabled : Option Bool
  image_url : Option String
  ban_reason : Option String
  liked_by_count : Option Int
  cloned_by_count : Option Int
  name : Option String
  description : Option String
  labels : Option (List (String × String))
  review_status : Option ReviewStatus
  review_message : Option String
  enabled_in_library : Option Bool
  instagram_username : Option String
  twitter_username : Option String
  youtube_username : Option String
  tiktok_username : Option String
  moderation_check : Option ModerationCheck
  reader_restricted_on : Option (List ReaderRestriction)

/-- Verified language record (`src/types.rs`). -/
structure VerifiedLanguage where
  language : String
  model_id : String
  accent : Option String
  locale : Option String
  preview_url : Option String

/-- Safety control enum (`src/types.rs`). -/
inductive SafetyControl where
  | NONE
  | BAN
  | CAPTCHA
  | ENTERPRISE_BAN
  | ENTERPRISE_CAPTCHA

/-- Voice verification record (`src/types.rs`). -/
structure VoiceVerification where
  requires_verification : Bool
  is_verified : Bool
  verification_failures : List String
  verification_attempts_count : Int
  language : Option String
  verification_attempts : Option (List VerificationAttempt)

/-- The Create Voice response record (`src/types.rs`, lines 111-136). -/
structure TTVCreateVoiceResponse where
  voice_id : String
  name : Option String
  samples : Option (List Sample)
  category : Option VoiceCategory
  fine_tuning : Option FineTuning
  labels : Option (List (String × String))
  description : Option String
  preview_url : Option String
  available_for_tiers : Option (List String)
  settings : Option VoiceSettings
  sharing : Option VoiceSharing
  high_quality_base_model_ids : Option (List String)
  verified_languages : Option (List VerifiedLanguage)
  safety_control : Option SafetyControl
  voice_verification : Option VoiceVerification
  permission_on_resource : Option String
  is_owner : Option Bool
  is_legacy : Option Bool
  is_mixed : Option Bool
  favorited_at_unix : Option Int
  created_at_unix : Option Int

/-- Modelled from the spec: `src/lib.rs` declares `pub mod models` and uses
`models::elevanlabs_models::ELEVEN_MULTILINGUAL_TTV_V2`, but `models.rs` is
not among the provided sources; the spec (§8, end-to-end scenario A) fixes
the constant's value as `"eleven_multilingual_ttv_v2"`. -/
def elevanlabs_models.ELEVEN_MULTILINGUAL_TTV_V2 : String := "eleven_multilingual_ttv_v2"

/-- The client struct (`src/lib.rs`, lines 50-55), without the opaque
`reqwest::Client` handle, which carries no observable state. -/
structure ElevenLabsTTVClient where
  api_key : String
  base_url : String
deriving DecidableEq

/-- `ElevenLabsTTVClient::new` (`src/lib.rs`, lines 59-65). -/
def ElevenLabsTTVClient.new (api_key : String) : ElevenLabsTTVClient :=
  { api_key := api_key, base_url := "https://api.elevenlabs.io/v1" }

/-- `ElevenLabsTTVClient::with_base_url` (`src/lib.rs`, lines 68-74). -/
def ElevenLabsTTVClient.with_base_url (api_key base_url : String) : ElevenLabsTTVClient :=
  { api_key := api_key, base_url := base_url }

/-- The observable outcome of the HTTP response to one POST, as the execute
methods consume it: the numeric status, the Retry-After header value when
the server supplied one (the crate never reads it), the result of
`response.text()` (`none` models a body-read failure, which the code maps
to the empty string via `unwrap_or_default`), and the result of
`response.json::<α>()`. -/
structure HttpResponse (α : Type) where
  status : Nat
  retryAfter : Option Nat
  bodyText : Option String
  decoded : Except ReqwestError α

/-- Outcome of `send().await`: either a `reqwest::Error` (converted by the
`?` operator through `From`), or a response. -/
inductive SendOutcome (α : Type) where
  | failure (e : ReqwestError)
  | success (r : HttpResponse α)

/-- `reqwest::StatusCode::is_success`: status in `200..=299`. -/
def statusIsSuccess (s : Nat) : Bool := 200 ≤ s && s ≤ 299

/-- URL assembly of `execute_design_voice` (`src/lib.rs`, lines 106-113):
the design endpoint plus an `output_format` query parameter, defaulting to
`"mp3_44100_128"` when the request carries none. -/
def ElevenLabsTTVClient.designVoiceUrl (c : ElevenLabsTTVClient)
    (request : TTVDesignVoiceRequest) : String :=
  let url := c.base_url ++ "/text-to-voice/design"
  let output_format := request.output_format.getD "mp3_44100_128"
  url ++ "?output_format=" ++ output_format

/-- URL assembly of `execute_create_voice` (`src/lib.rs`, line 145). -/
def ElevenLabsTTVClient.createVoiceUrl (c : ElevenLabsTTVClient) : String :=
  c.base_url ++ "/text-to-voice"

/-- Response handling of `execute_design_voice` (`src/lib.rs`, lines 115-137):
a send failure is converted through `From` by `?`; a non-success status
returns `ApiError` with the status and the body text (empty on read
failure); a success status decodes the body, a decode failure becoming
`ParseError`. -/
def ElevenLabsTTVClient.execute_design_voice (c : ElevenLabsTTVClient)
    (request : TTVDesignVoiceRequest)
    (outcome : SendOutcome TTVDesignVoiceResponse) :
    Except ElevenLabsTTVError TTVDesignVoiceResponse :=
  match outcome with
  | SendOutcome.failure e => Except.error (ElevenLabsTTVError.fromReqwestError e)
  | SendOutcome.success response =>
    if !(statusIsSuccess response.status) then
      Except.error (ElevenLabsTTVError.ApiError response.status (response.bodyText.getD ""))
    else
      match response.decoded with
      | Except.ok ttv_response => Except.ok ttv_response
      | Except.error e => Except.error (ElevenLabsTTVError.ParseError e)

/-- Response handling of `execute_create_voice` (`src/lib.rs`, lines 147-169),
identical in shape to the design-voice path. -/
def ElevenLabsTTVClient.execute_create_voice (c : ElevenLabsTTVClient)
    (request : TTVCreateVoiceRequest)
    (outcome : SendOutcome TTVCreateVoiceResponse) :
    Except ElevenLabsTTVError TTVCreateVoiceResponse :=
  match outcome with
  | SendOutcome.failure e => Except.error (ElevenLabsTTVError.fromReqwestError e)
  | SendOutcome.success response =>
    if !(statusIsSuccess response.status) then
      Except.error (ElevenLabsTTVError.ApiError response.status (response.bodyText.getD ""))
    else
      match response.decoded with
      | Except.ok ttv_response => Except.ok ttv_response
      | Except.error e => Except.error (ElevenLabsTTVError.ParseError e)

/-- Builder for Design Voice requests (`src/lib.rs`, lines 173-189). -/
structure TextToVoiceDesignVoiceBuilder where
  client : ElevenLabsTTVClient
  voice_description : String
  output_format : Option String
  model_id : Option String
  text : Option String
  auto_generate_text : Option Bool
  loudness : Option Float
  seed : Option Nat
  guidance_scale : Option Nat
  stream_previews : Option Bool
  remixing_session_id : Option String
  remixing_session_iteration_id : Option String
  quality : Option Float
  reference_audio_base64 : Option String
  prompt_strength : Option Float

/-- `TextToVoiceDesignVoiceBuilder::new` (`src/lib.rs`, lines 192-210). -/
def TextToVoiceDesignVoiceBuilder.new (client : ElevenLabsTTVClient)
    (voice_description : String) : TextToVoiceDesignVoiceBuilder :=
  { client := client
    voice_description := voice_description
    output_format := none
    text := none
    model_id := none
    auto_generate_text := none
    loudness := none
    seed := none
    guidance_scale := none
    stream_previews := none
    remixing_session_id := none
    remixing_session_iteration_id := none
    quality := none
    reference_audio_base64 := none
    prompt_strength := none }

/-- `ElevenLabsTTVClient::design_voice` (`src/lib.rs`, lines 79-84). -/
def ElevenLabsTTVClient.design_voice (c : ElevenLabsTTVClient)
    (voice_description : String) : TextToVoiceDesignVoiceBuilder :=
  TextToVoiceDesignVoiceBuilder.new c voice_description

namespace TextToVoiceDesignVoiceBuilder

/-- Setter `output_format` of the source (declared here as `set_output_format`, since Lean reserves the field name) (`src/lib.rs`, lines 218-221). -/
def set_output_format (b : TextToVoiceDesignVoiceBuilder) (v : String) :
    TextToVoiceDesignVoiceBuilder :=
  { b with output_format := some v }

/-- Setter `text` of the source (declared here as `set_text`, since Lean reserves the field name) (`src/lib.rs`, lines 225-228). -/
def set_text (b : TextToVoiceDesignVoiceBuilder) (v : String) :
    TextToVoiceDesignVoiceBuilder :=
  { b with text := some v }

/-- Setter `model` of the source (declared here as `set_model`, since Lean reserves the field name) (`src/lib.rs`, lines 232-235). -/
def set_model (b : TextToVoiceDesignVoiceBuilder) (v : String) :
    TextToVoiceDesignVoiceBuilder :=
  { b with model_id := some v }

/-- Setter `auto_generate_text` of the source (declared here as `set_auto_generate_text`, since Lean reserves the field name) (`src/lib.rs`, lines 238-241). -/
def set_auto_generate_text (b : TextToVoiceDesignVoiceBuilder) (v : Bool) :
    TextToVoiceDesignVoiceBuilder :=
  { b with auto_generate_text := some v }

/-- Setter `loudness` of the source (declared here as `set_loudness`, since Lean reserves the field name) (`src/lib.rs`, lines 245-248). -/
def set_loudness (b : TextToVoiceDesignVoiceBuilder) (v : Float) :
    TextToVoiceDesignVoiceBuilder :=
  { b with loudness := some v }

/-- Setter `seed` of the source (declared here as `set_seed`, since Lean reserves the field name) (`src/lib.rs`, lines 252-255). -/
def set_seed (b : TextToVoiceDesignVoiceBuilder) (v : Nat) :
    TextToVoiceDesignVoiceBuilder :=
  { b with seed := some v }

/-- Setter `guidance_scale` of the source (declared here as `set_guidance_scale`, since Lean reserves the field name) (`src/lib.rs`, lines 260-263). -/
def set_guidance_scale (b : TextToVoiceDesignVoiceBuilder) (v : Nat) :
    TextToVoiceDesignVoiceBuilder :=
  { b with guidance_scale := some v }

/-- Setter `stream_previews` of the source (declared here as `set_stream_previews`, since Lean reserves the field name) (`src/lib.rs`, lines 268-271). -/
def set_stream_previews (b : TextToVoiceDesignVoiceBuilder) (v : Bool) :
    TextToVoiceDesignVoiceBuilder :=
  { b with stream_previews := some v }

/-- Setter `remixing_session_id` of the source (declared here as `set_remixing_session_id`, since Lean reserves the field name) (`src/lib.rs`, lines 274-277). -/
def set_remixing_session_id (b : TextToVoiceDesignVoiceBuilder) (v : String) :
    TextToVoiceDesignVoiceBuilder :=
  { b with remixing_session_id := some v }

/-- Setter `remixing_session_iteration_id` of the source (declared here as `set_remixing_session_iteration_id`, since Lean reserves the field name) (`src/lib.rs`, lines 281-287). -/
def set_remixing_session_iteration_id (b : TextToVoiceDesignVoiceBuilder) (v : String) :
    TextToVoiceDesignVoiceBuilder :=
  { b with remixing_session_iteration_id := some v }

/-- Setter `quality` of the source (declared here as `set_quality`, since Lean reserves the field name) (`src/lib.rs`, lines 291-294). -/
def set_quality (b : TextToVoiceDesignVoiceBuilder) (v : Float) :
    TextToVoiceDesignVoiceBuilder :=
  { b with quality := some v }

/-- Setter `reference_audio_base64` of the source (declared here as `set_reference_audio_base64`, since Lean reserves the field name) (`src/lib.rs`, lines 298-301). -/
def set_reference_audio_base64 (b : TextToVoiceDesignVoiceBuilder) (v : String) :
    TextToVoiceDesignVoiceBuilder :=
  { b with reference_audio_base64 := some v }

/-- Setter `prompt_strength` of the source (declared here as `set_prompt_strength`, since Lean reserves the field name) (`src/lib.rs`, lines 307-310). -/
def set_prompt_strength (b : TextToVoiceDesignVoiceBuilder) (v : Float) :
    TextToVoiceDesignVoiceBuilder :=
  { b with prompt_strength := some v }

/-- The request value assembled by `execute` (`src/lib.rs`, lines 313-335):
defaulting of `model_id`, `auto_generate_text`, `loudness`,
`guidance_scale` and `stream_previews`, with `output_format` hardcoded to
`None`; the network part is `ElevenLabsTTVClient.execute_design_voice`. -/
def executeRequest (b : TextToVoiceDesignVoiceBuilder) : TTVDesignVoiceRequest :=
  { voice_description := b.voice_description
    model_id := some (b.model_id.getD elevanlabs_models.ELEVEN_MULTILINGUAL_TTV_V2)
    output_format := none
    text := b.text.or none
    auto_generate_text := b.auto_generate_text.or
      (if b.text.isSome then none else some true)
    loudness := b.loudness.or (some 0.5)
    seed := b.seed.or none
    guidance_scale := b.guidance_scale.or (some 5)
    stream_previews := b.stream_previews.or (some false)
    remixing_session_id := b.remixing_session_id.or none
    remixing_session_iteration_id := b.remixing_session_iteration_id.or none
    quality := b.quality.or none
    reference_audio_base64 := b.reference_audio_base64.or none
    prompt_strength := b.prompt_strength.or none }

/-- `execute` (`src/lib.rs`, lines 313-338): build the request, then run the
design-voice transport on the given exchange outcome. -/
def execute (b : TextToVoiceDesignVoiceBuilder)
    (outcome : SendOutcome TTVDesignVoiceResponse) :
    Except ElevenLabsTTVError TTVDesignVoiceResponse :=
  b.client.execute_design_voice b.executeRequest outcome

end TextToVoiceDesignVoiceBuilder

/-- Builder for Create Voice requests (`src/lib.rs`, lines 342-349). -/
structure TextToVoiceCreateVoiceBuilder where
  client : ElevenLabsTTVClient
  voice_name : String
  voice_description : String
  generated_voice_id : String
  labels : Option String
  played_not_selected_voice_ids : Option String

/-- `TextToVoiceCreateVoiceBuilder::new` (`src/lib.rs`, lines 352-366). -/
def TextToVoiceCreateVoiceBuilder.new (client : ElevenLabsTTVClient)
    (voice_name voice_description generated_voice_id : String) :
    TextToVoiceCreateVoiceBuilder :=
  { client := client
    voice_name := voice_name
    voice_description := voice_description
    generated_voice_id := generated_voice_id
    labels := none
    played_not_selected_voice_ids := none }

/-- `ElevenLabsTTVClient::create_voice` (`src/lib.rs`, lines 87-99). -/
def ElevenLabsTTVClient.create_voice (c : ElevenLabsTTVClient)
    (voice_name voice_description generated_voice_id : String) :
    TextToVoiceCreateVoiceBuilder :=
  TextToVoiceCreateVoiceBuilder.new c voice_name voice_description generated_voice_id

namespace TextToVoiceCreateVoiceBuilder

/-- Setter `labels` of the source (declared here as `set_labels`, since Lean reserves the field name) (`src/lib.rs`, lines 369-372). -/
def set_labels (b : TextToVoiceCreateVoiceBuilder) (v : String) :
    TextToVoiceCreateVoiceBuilder :=
  { b with labels := some v }

/-- Setter `played_not_selected_voice_ids` of the source (declared here as `set_played_not_selected_voice_ids`, since Lean reserves the field name) (`src/lib.rs`, lines 375-381). -/
def set_played_not_selected_voice_ids (b : TextToVoiceCreateVoiceBuilder) (v : String) :
    TextToVoiceCreateVoiceBuilder :=
  { b with played_not_selected_voice_ids := some v }

/-- The request value assembled by `execute` (`src/lib.rs`, lines 384-391). -/
def executeRequest (b : TextToVoiceCreateVoiceBuilder) : TTVCreateVoiceRequest :=
  { voice_name := b.voice_name
    generated_voice_id := b.generated_voice_id
    voice_description := b.voice_description
    labels := b.labels.or none
    played_not_selected_voice_ids := b.played_not_selected_voice_ids.or none }

/-- `execute` (`src/lib.rs`, lines 384-394): build the request, then run the
create-voice transport on the given exchange outcome. -/
def execute (b : TextToVoiceCreateVoiceBuilder)
    (outcome : SendOutcome TTVCreateVoiceResponse) :
    Except ElevenLabsTTVError TTVCreateVoiceResponse :=
  b.client.execute_create_voice b.executeRequest outcome

end TextToVoiceCreateVoiceBuilder

/-- A concrete finalized Design Voice request (client key `"k"`, description
`"X"`, no overrides), used to evaluate the transport at concrete inputs. -/
def sampleDesignRequest : TTVDesignVoiceRequest :=
  ((ElevenLabsTTVClient.new "k").design_voice "X").executeRequest

/-- A concrete finalized Create Voice request (name `"Jack"`, description
`"desc"`, generated_voice_id `"abc123"`, no labels). -/
def sampleCreateRequest : TTVCreateVoiceRequest :=
  ((ElevenLabsTTVClient.new "k").create_voice "Jack" "desc" "abc123").executeRequest

/-- A concrete decode error, as `response.json::<T>()` would produce it. -/
def sampleDecodeErr : ReqwestError :=
  { status := none, errText := "error decoding response body", retryAfter := none }

/-- Claim C1, counterexample: a completed HTTP exchange with status 401 and
body `"unauthorized"` is classified by `execute_design_voice` as
`ApiError 401 "unauthorized"`, not as an authentication failure — the
execute methods never route a completed non-2xx response through the
`From<reqwest::Error>` classifier. -/
theorem C1_counterexample :
    (ElevenLabsTTVClient.new "k").execute_design_voice sampleDesignRequest
      (SendOutcome.success ⟨401, none, some "unauthorized", Except.error sampleDecodeErr⟩) =
      Except.error (ElevenLabsTTVError.ApiError 401 "unauthorized") ∧
    ¬ ∃ msg, (ElevenLabsTTVClient.new "k").execute_design_voice sampleDesignRequest
      (SendOutcome.success ⟨401, none, some "unauthorized", Except.error sampleDecodeErr⟩) =
      Except.error (ElevenLabsTTVError.AuthenticationError msg) := by
  refine ⟨rfl, ?_⟩
  rintro ⟨msg, h⟩
  exact ElevenLabsTTVError.noConfusion (Except.error.inj h)

/-- Claim C1, amended: the `From<reqwest::Error>` classifier is a pure
function of the error's status: 401 → AuthenticationError, 402 →
QuotaExceededError, 429 → RateLimitError, any other present status →
ApiError with that status and the error's display text, absent status →
RequestError. However, completed non-2xx HTTP exchanges in the execute
methods never reach this classifier: they are uniformly mapped to
ApiError with the response status and body text; only send-level failures
(in particular those with no status) are classified through it. -/
theorem C1_classification :
    (∀ e : ReqwestError, e.status = some 401 →
      ElevenLabsTTVError.fromReqwestError e =
        ElevenLabsTTVError.AuthenticationError "Invalid API key") ∧
    (∀ e : ReqwestError, e.status = some 402 →
      ElevenLabsTTVError.fromReqwestError e =
        ElevenLabsTTVError.QuotaExceededError "Insufficient credits") ∧
    (∀ e : ReqwestError, e.status = some 429 →
      ElevenLabsTTVError.fromReqwestError e =
        ElevenLabsTTVError.RateLimitError none "Too many requests") ∧
    (∀ (e : ReqwestError) (s : Nat), e.status = some s →
      s ≠ 401 → s ≠ 402 → s ≠ 429 →
      ElevenLabsTTVError.fromReqwestError e =
        ElevenLabsTTVError.ApiError s e.errText) ∧
    (∀ e : ReqwestError, e.status = none →
      ElevenLabsTTVError.fromReqwestError e = ElevenLabsTTVError.RequestError e) ∧
    (∀ (c : ElevenLabsTTVClient) (req : TTVDesignVoiceRequest)
        (r : HttpResponse TTVDesignVoiceResponse),
      statusIsSuccess r.status = false →
      c.execute_design_voice req (SendOutcome.success r) =
        Except.error (ElevenLabsTTVError.ApiError r.status (r.bodyText.getD ""))) ∧
    (∀ (c : ElevenLabsTTVClient) (req : TTVCreateVoiceRequest)
        (r : HttpResponse TTVCreateVoiceResponse),
      statusIsSuccess r.status = false →
      c.execute_create_voice req (SendOutcome.success r) =
        Except.error (ElevenLabsTTVError.ApiError r.status (r.bodyText.getD ""))) ∧
    (∀ (c : ElevenLabsTTVClient) (req : TTVDesignVoiceRequest) (e : ReqwestError),
      e.status = none →
      c.execute_design_voice req (SendOutcome.failure e) =
        Except.error (ElevenLabsTTVError.RequestError e)) := by
  refine ⟨?_, ?_, ?_, ?_, ?_, ?_, ?_, ?_⟩
  · intro e h
    simp [ElevenLabsTTVError.fromReqwestError, h]
  · intro e h
    simp [ElevenLabsTTVError.fromReqwestError, h]
  · intro e h
    simp [ElevenLabsTTVError.fromReqwestError, h]
  · intro e s h h1 h2 h3
    simp [ElevenLabsTTVError.fromReqwestError, h, h1, h2, h3]
  · intro e h
    simp [ElevenLabsTTVError.fromReqwestError, h]
  · intro c req r h
    simp [ElevenLabsTTVClient.execute_design_voice, h]
  · intro c req r h
    simp [ElevenLabsTTVClient.execute_create_voice, h]
  · intro c req e h
    simp [ElevenLabsTTVClient.execute_design_voice,
      ElevenLabsTTVError.fromReqwestError, h]

/-- Claim C1, witness: the amended classification evaluated at concrete
inputs for each branch. -/
theorem C1_classification_witness :
    ElevenLabsTTVError.fromReqwestError ⟨some 401, "t", none⟩ =
      ElevenLabsTTVError.AuthenticationError "Invalid API key" ∧
    ElevenLabsTTVError.fromReqwestError ⟨some 402, "t", none⟩ =
      ElevenLabsTTVError.QuotaExceededError "Insufficient credits" ∧
    ElevenLabsTTVError.fromReqwestError ⟨some 429, "t", none⟩ =
      ElevenLabsTTVError.RateLimitError none "Too many requests" ∧
    ElevenLabsTTVError.fromReqwestError ⟨some 500, "boom", none⟩ =
      ElevenLabsTTVError.ApiError 500 "boom" ∧
    ElevenLabsTTVError.fromReqwestError ⟨none, "conn", none⟩ =
      ElevenLabsTTVError.RequestError ⟨none, "conn", none⟩ ∧
    (ElevenLabsTTVClient.new "k").execute_design_voice sampleDesignRequest
      (SendOutcome.success ⟨500, none, some "oops", Except.error sampleDecodeErr⟩) =
      Except.error (ElevenLabsTTVError.ApiError 500 "oops") ∧
    (ElevenLabsTTVClient.new "k").execute_create_voice sampleCreateRequest
      (SendOutcome.success ⟨500, none, some "oops", Except.error sampleDecodeErr⟩) =
      Except.error (ElevenLabsTTVError.ApiError 500 "oops") ∧
    (ElevenLabsTTVClient.new "k").execute_design_voice sampleDesignRequest
      (SendOutcome.failure ⟨none, "conn", none⟩) =
      Except.error (ElevenLabsTTVError.RequestError
        ⟨none, "conn", none⟩) :=
  ⟨C1_classification.1 _ rfl,
   C1_classification.2.1 _ rfl,
   C1_classification.2.2.1 _ rfl,
   C1_classification.2.2.2.1 _ 500 rfl (by decide) (by decide) (by decide),
   C1_classification.2.2.2.2.1 _ rfl,
   C1_classification.2.2.2.2.2.1 _ _ _ (by decide),
   C1_classification.2.2.2.2.2.2.1 _ _ _ (by decide),
   C1_classification.2.2.2.2.2.2.2 _ _ _ rfl⟩

/-- Claim C2, counterexample: a design-voice exchange completing with status
429, no Retry-After header and body `"Too many requests"` returns
`ApiError 429 "Too many requests"`, not the claimed
`RateLimitError none "Too many requests"`. -/
theorem C2_counterexample :
    (ElevenLabsTTVClient.new "k").execute_design_voice sampleDesignRequest
      (SendOutcome.success ⟨429, none, some "Too many requests", Except.error sampleDecodeErr⟩) =
      Except.error (ElevenLabsTTVError.ApiError 429 "Too many requests") ∧
    (ElevenLabsTTVClient.new "k").execute_design_voice sampleDesignRequest
      (SendOutcome.success ⟨429, none, some "Too many requests", Except.error sampleDecodeErr⟩) ≠
      Except.error (ElevenLabsTTVError.RateLimitError none "Too many requests") := by
  refine ⟨rfl, ?_⟩
  intro h
  exact ElevenLabsTTVError.noConfusion (Except.error.inj h)

/-- Claim C2, amended: for a design-voice or create-voice call whose HTTP
exchange completes with status 429, no Retry-After header and body
`"Too many requests"`, the call returns `ApiError` with status 429 and
message `"Too many requests"` — the execute methods map every completed
non-2xx response directly to `ApiError` with the status and raw body,
without consulting the `From<reqwest::Error>` classifier. -/
theorem C2_rate_limited_exchange :
    ∀ (c : ElevenLabsTTVClient),
      (∀ (req : TTVDesignVoiceRequest) (r : HttpResponse TTVDesignVoiceResponse),
        r.status = 429 → r.retryAfter = none → r.bodyText = some "Too many requests" →
        c.execute_design_voice req (SendOutcome.success r) =
          Except.error (ElevenLabsTTVError.ApiError 429 "Too many requests")) ∧
      (∀ (req : TTVCreateVoiceRequest) (r : HttpResponse TTVCreateVoiceResponse),
        r.status = 429 → r.retryAfter = none → r.bodyText = some "Too many requests" →
        c.execute_create_voice req (SendOutcome.success r) =
          Except.error (ElevenLabsTTVError.ApiError 429 "Too many requests")) := by
  intro c
  constructor
  · intro req r h1 h2 h3
    simp [ElevenLabsTTVClient.execute_design_voice, statusIsSuccess, h1, h3]
  · intro req r h1 h2 h3
    simp [ElevenLabsTTVClient.execute_create_voice, statusIsSuccess, h1, h3]

/-- Claim C2, witness: the amended statement evaluated on concrete 429
exchanges for both endpoints. -/
theorem C2_rate_limited_exchange_witness :
    (ElevenLabsTTVClient.new "k").execute_design_voice sampleDesignRequest
      (SendOutcome.success ⟨429, none, some "Too many requests", Except.error sampleDecodeErr⟩) =
      Except.error (ElevenLabsTTVError.ApiError 429 "Too many requests") ∧
    (ElevenLabsTTVClient.new "k").execute_create_voice sampleCreateRequest
      (SendOutcome.success ⟨429, none, some "Too many requests", Except.error sampleDecodeErr⟩) =
      Except.error (ElevenLabsTTVError.ApiError 429 "Too many requests") :=
  ⟨(C2_rate_limited_exchange (ElevenLabsTTVClient.new "k")).1 sampleDesignRequest _ rfl rfl rfl,
   (C2_rate_limited_exchange (ElevenLabsTTVClient.new "k")).2 sampleCreateRequest _ rfl rfl rfl⟩

/-- Claim C8, counterexample: an exchange classified as rate-limited (status
429) on which the server supplied Retry-After 30 still yields
`RateLimitError` with `retry_after = none` — the code hardcodes `None` and
never parses the Retry-After header. -/
theorem C8_counterexample :
    ElevenLabsTTVError.fromReqwestError ⟨some 429, "err", some 30⟩ =
      ElevenLabsTTVError.RateLimitError none "Too many requests" ∧
    ElevenLabsTTVError.fromReqwestError ⟨some 429, "err", some 30⟩ ≠
      ElevenLabsTTVError.RateLimitError (some 30) "Too many requests" := by
  exact ⟨rfl, by decide⟩

/-- Claim C8, amended: every exchange the classifier marks rate-limited
(status 429) yields `retry_after = none` and message `"Too many requests"`,
regardless of whether the server supplied a Retry-After value; the code
never reads the header. -/
theorem C8_retry_after_always_none :
    ∀ e : ReqwestError, e.status = some 429 →
      ElevenLabsTTVError.fromReqwestError e =
        ElevenLabsTTVError.RateLimitError none "Too many requests" := by
  intro e h
  simp [ElevenLabsTTVError.fromReqwestError, h]

/-- Claim C8, witness: the amended statement at a concrete 429 error carrying
a server-supplied Retry-After value. -/
theorem C8_retry_after_always_none_witness :
    ElevenLabsTTVError.fromReqwestError ⟨some 429, "err", some 30⟩ =
      ElevenLabsTTVError.RateLimitError none "Too many requests" :=
  C8_retry_after_always_none ⟨some 429, "err", some 30⟩ rfl

/-- Claim C9: every builder setter is pure and changes exactly one field,
its own, to `some v`; every other field (the client and the required fields
included) is unchanged. In particular no setter ever writes `none`, so a
field can never be unset once set. Covers all 13 Design Voice setters and
both Create Voice setters. -/
theorem C9_setters_pure_frame :
    (∀ (b : TextToVoiceDesignVoiceBuilder) (v : String),
      (b.set_output_format v).output_format = some v ∧
      (b.set_output_format v).client = b.client ∧
      (b.set_output_format v).voice_description = b.voice_description ∧
      (b.set_output_format v).model_id = b.model_id ∧
      (b.set_output_format v).text = b.text ∧
      (b.set_output_format v).auto_generate_text = b.auto_generate_text ∧
      (b.set_output_format v).loudness = b.loudness ∧
      (b.set_output_format v).seed = b.seed ∧
      (b.set_output_format v).guidance_scale = b.guidance_scale ∧
      (b.set_output_format v).stream_previews = b.stream_previews ∧
      (b.set_output_format v).remixing_session_id = b.remixing_session_id ∧
      (b.set_output_format v).remixing_session_iteration_id = b.remixing_session_iteration_id ∧
      (b.set_output_format v).quality = b.quality ∧
      (b.set_output_format v).reference_audio_base64 = b.reference_audio_base64 ∧
      (b.set_output_format v).prompt_strength = b.prompt_strength) ∧
    (∀ (b : TextToVoiceDesignVoiceBuilder) (v : String),
      (b.set_text v).text = some v ∧
      (b.set_text v).client = b.client ∧
      (b.set_text v).voice_description = b.voice_description ∧
      (b.set_text v).output_format = b.output_format ∧
      (b.set_text v).model_id = b.model_id ∧
      (b.set_text v).auto_generate_text = b.auto_generate_text ∧
      (b.set_text v).loudness = b.loudness ∧
      (b.set_text v).seed = b.seed ∧
      (b.set_text v).guidance_scale = b.guidance_scale ∧
      (b.set_text v).stream_previews = b.stream_previews ∧
      (b.set_text v).remixing_session_id = b.remixing_session_id ∧
      (b.set_text v).remixing_session_iteration_id = b.remixing_session_iteration_id ∧
      (b.set_text v).quality = b.quality ∧
      (b.set_text v).reference_audio_base64 = b.reference_audio_base64 ∧
      (b.set_text v).prompt_strength = b.prompt_strength) ∧
    (∀ (b : TextToVoiceDesignVoiceBuilder) (v : String),
      (b.set_model v).model_id = some v ∧
      (b.set_model v).client = b.client ∧
      (b.set_model v).voice_description = b.voice_description ∧
      (b.set_model v).output_format = b.output_format ∧
      (b.set_model v).text = b.text ∧
      (b.set_model v).auto_generate_text = b.auto_generate_text ∧
      (b.set_model v).loudness = b.loudness ∧
      (b.set_model v).seed = b.seed ∧
      (b.set_model v).guidance_scale = b.guidance_scale ∧
      (b.set_model v).stream_previews = b.stream_previews ∧
      (b.set_model v).remixing_session_id = b.remixing_session_id ∧
      (b.set_model v).remixing_session_iteration_id = b.remixing_session_iteration_id ∧
      (b.set_model v).quality = b.quality ∧
      (b.set_model v).reference_audio_base64 = b.reference_audio_base64 ∧
      (b.set_model v).prompt_strength = b.prompt_strength) ∧
    (∀ (b : TextToVoiceDesignVoiceBuilder) (v : Bool),
      (b.set_auto_generate_text v).auto_generate_text = some v ∧
      (b.set_auto_generate_text v).client = b.client ∧
      (b.set_auto_generate_text v).voice_description = b.voice_description ∧
      (b.set_auto_generate_text v).output_format = b.output_format ∧
      (b.set_auto_generate_text v).model_id = b.model_id ∧
      (b.set_auto_generate_text v).text = b.text ∧
      (b.set_auto_generate_text v).loudness = b.loudness ∧
      (b.set_auto_generate_text v).seed = b.seed ∧
      (b.set_auto_generate_text v).guidance_scale = b.guidance_scale ∧
      (b.set_auto_generate_text v).stream_previews = b.stream_previews ∧
      (b.set_auto_generate_text v).remixing_session_id = b.remixing_session_id ∧
      (b.set_auto_generate_text v).remixing_session_iteration_id = b.remixing_session_iteration_id ∧
      (b.set_auto_generate_text v).quality = b.quality ∧
      (b.set_auto_generate_text v).reference_audio_base64 = b.reference_audio_base64 ∧
      (b.set_auto_generate_text v).prompt_strength = b.prompt_strength) ∧
    (∀ (b : TextToVoiceDesignVoiceBuilder) (v : Float),
      (b.set_loudness v).loudness = some v ∧
      (b.set_loudness v).client = b.client ∧
      (b.set_loudness v).voice_description = b.voice_description ∧
      (b.set_loudness v).output_format = b.output_format ∧
      (b.set_loudness v).model_id = b.model_id ∧
      (b.set_loudness v).text = b.text ∧
      (b.set_loudness v).auto_generate_text = b.auto_generate_text ∧
      (b.set_loudness v).seed = b.seed ∧
      (b.set_loudness v).guidance_scale = b.guidance_scale ∧
      (b.set_loudness v).stream_previews = b.stream_previews ∧
      (b.set_loudness v).remixing_session_id = b.remixing_session_id ∧
      (b.set_loudness v).remixing_session_iteration_id = b.remixing_session_iteration_id ∧
      (b.set_loudness v).quality = b.quality ∧
      (b.set_loudness v).reference_audio_base64 = b.reference_audio_base64 ∧
      (b.set_loudness v).prompt_strength = b.prompt_strength) ∧
    (∀ (b : TextToVoiceDesignVoiceBuilder) (v : Nat),
      (b.set_seed v).seed = some v ∧
      (b.set_seed v).client = b.client ∧
      (b.set_seed v).voice_description = b.voice_description ∧
      (b.set_seed v).output_format = b.output_format ∧
      (b.set_seed v).model_id = b.model_id ∧
      (b.set_seed v).text = b.text ∧
      (b.set_seed v).auto_generate_text = b.auto_generate_text ∧
      (b.set_seed v).loudness = b.loudness ∧
      (b.set_seed v).guidance_scale = b.guidance_scale ∧
      (b.set_seed v).stream_previews = b.stream_previews ∧
      (b.set_seed v).remixing_session_id = b.remixing_session_id ∧
      (b.set_seed v).remixing_session_iteration_id = b.remixing_session_iteration_id ∧
      (b.set_seed v).quality = b.quality ∧
      (b.set_seed v).reference_audio_base64 = b.reference_audio_base64 ∧
      (b.set_seed v).prompt_strength = b.prompt_strength) ∧
    (∀ (b : TextToVoiceDesignVoiceBuilder) (v : Nat),
      (b.set_guidance_scale v).guidance_scale = some v ∧
      (b.set_guidance_scale v).client = b.client ∧
      (b.set_guidance_scale v).voice_description = b.voice_description ∧
      (b.set_guidance_scale v).output_format = b.output_format ∧
      (b.set_guidance_scale v).model_id = b.model_id ∧
      (b.set_guidance_scale v).text = b.text ∧
      (b.set_guidance_scale v).auto_generate_text = b.auto_generate_text ∧
      (b.set_guidance_scale v).loudness = b.loudness ∧
      (b.set_guidance_scale v).seed = b.seed ∧
      (b.set_guidance_scale v).stream_previews = b.stream_previews ∧
      (b.set_guidance_scale v).remixing_session_id = b.remixing_session_id ∧
      (b.set_guidance_scale v).remixing_session_iteration_id = b.remixing_session_iteration_id ∧
      (b.set_guidance_scale v).quality = b.quality ∧
      (b.set_guidance_scale v).reference_audio_base64 = b.reference_audio_base64 ∧
      (b.set_guidance_scale v).prompt_strength = b.prompt_strength) ∧
    (∀ (b : TextToVoiceDesignVoiceBuilder) (v : Bool),
      (b.set_stream_previews v).stream_previews = some v ∧
      (b.set_stream_previews v).client = b.client ∧
      (b.set_stream_previews v).voice_description = b.voice_description ∧
      (b.set_stream_previews v).output_format = b.output_format ∧
      (b.set_stream_previews v).model_id = b.model_id ∧
      (b.set_stream_previews v).text = b.text ∧
      (b.set_stream_previews v).auto_generate_text = b.auto_generate_text ∧
      (b.set_stream_previews v).loudness = b.loudness ∧
      (b.set_stream_previews v).seed = b.seed ∧
      (b.set_stream_previews v).guidance_scale = b.guidance_scale ∧
      (b.set_stream_previews v).remixing_session_id = b.remixing_session_id ∧
      (b.set_stream_previews v).remixing_session_iteration_id = b.remixing_session_iteration_id ∧
      (b.set_stream_previews v).quality = b.quality ∧
      (b.set_stream_previews v).reference_audio_base64 = b.reference_audio_base64 ∧
      (b.set_stream_previews v).prompt_strength = b.prompt_strength) ∧
    (∀ (b : TextToVoiceDesignVoiceBuilder) (v : String),
      (b.set_remixing_session_id v).remixing_session_id = some v ∧
      (b.set_remixing_session_id v).client = b.client ∧
      (b.set_remixing_session_id v).voice_description = b.voice_description ∧
      (b.set_remixing_session_id v).output_format = b.output_format ∧
      (b.set_remixing_session_id v).model_id = b.model_id ∧
      (b.set_remixing_session_id v).text = b.text ∧
      (b.set_remixing_session_id v).auto_generate_text = b.auto_generate_text ∧
      (b.set_remixing_session_id v).loudness = b.loudness ∧
      (b.set_remixing_session_id v).seed = b.seed ∧
      (b.set_remixing_session_id v).guidance_scale = b.guidance_scale ∧
      (b.set_remixing_session_id v).stream_previews = b.stream_previews ∧
      (b.set_remixing_session_id v).remixing_session_iteration_id = b.remixing_session_iteration_id ∧
      (b.set_remixing_session_id v).quality = b.quality ∧
      (b.set_remixing_session_id v).reference_audio_base64 = b.reference_audio_base64 ∧
      (b.set_remixing_session_id v).prompt_strength = b.prompt_strength) ∧
    (∀ (b : TextToVoiceDesignVoiceBuilder) (v : String),
      (b.set_remixing_session_iteration_id v).remixing_session_iteration_id = some v ∧
      (b.set_remixing_session_iteration_id v).client = b.client ∧
      (b.set_remixing_session_iteration_id v).voice_description = b.voice_description ∧
      (b.set_remixing_session_iteration_id v).output_format = b.output_format ∧
      (b.set_remixing_session_iteration_id v).model_id = b.model_id ∧
      (b.set_remixing_session_iteration_id v).text = b.text ∧
      (b.set_remixing_session_iteration_id v).auto_generate_text = b.auto_generate_text ∧
      (b.set_remixing_session_iteration_id v).loudness = b.loudness ∧
      (b.set_remixing_session_iteration_id v).seed = b.seed ∧
      (b.set_remixing_session_iteration_id v).guidance_scale = b.guidance_scale ∧
      (b.set_remixing_session_iteration_id v).stream_previews = b.stream_previews ∧
      (b.set_remixing_session_iteration_id v).remixing_session_id = b.remixing_session_id ∧
      (b.set_remixing_session_iteration_id v).quality = b.quality ∧
      (b.set_remixing_session_iteration_id v).reference_audio_base64 = b.reference_audio_base64 ∧
      (b.set_remixing_session_iteration_id v).prompt_strength = b.prompt_strength) ∧
    (∀ (b : TextToVoiceDesignVoiceBuilder) (v : Float),
      (b.set_quality v).quality = some v ∧
      (b.set_quality v).client = b.client ∧
      (b.set_quality v).voice_description = b.voice_description ∧
      (b.set_quality v).output_format = b.output_format ∧
      (b.set_quality v).model_id = b.model_id ∧
      (b.set_quality v).text = b.text ∧
      (b.set_quality v).auto_generate_text = b.auto_generate_text ∧
      (b.set_quality v).loudness = b.loudness ∧
      (b.set_quality v).seed = b.seed ∧
      (b.set_quality v).guidance_scale = b.guidance_scale ∧
      (b.set_quality v).stream_previews = b.stream_previews ∧
      (b.set_quality v).remixing_session_id = b.remixing_session_id ∧
      (b.set_quality v).remixing_session_iteration_id = b.remixing_session_iteration_id ∧
      (b.set_quality v).reference_audio_base64 = b.reference_audio_base64 ∧
      (b.set_quality v).prompt_strength = b.prompt_strength) ∧
    (∀ (b : TextToVoiceDesignVoiceBuilder) (v : String),
      (b.set_reference_audio_base64 v).reference_audio_base64 = some v ∧
      (b.set_reference_audio_base64 v).client = b.client ∧
      (b.set_reference_audio_base64 v).voice_description = b.voice_description ∧
      (b.set_reference_audio_base64 v).output_format = b.output_format ∧
      (b.set_reference_audio_base64 v).model_id = b.model_id ∧
      (b.set_reference_audio_base64 v).text = b.text ∧
      (b.set_reference_audio_base64 v).auto_generate_text = b.auto_generate_text ∧
      (b.set_reference_audio_base64 v).loudness = b.loudness ∧
      (b.set_reference_audio_base64 v).seed = b.seed ∧
      (b.set_reference_audio_base64 v).guidance_scale = b.guidance_scale ∧
      (b.set_reference_audio_base64 v).stream_previews = b.stream_previews ∧
      (b.set_reference_audio_base64 v).remixing_session_id = b.remixing_session_id ∧
      (b.set_reference_audio_base64 v).remixing_session_iteration_id = b.remixing_session_iteration_id ∧
      (b.set_reference_audio_base64 v).quality = b.quality ∧
      (b.set_reference_audio_base64 v).prompt_strength = b.prompt_strength) ∧
    (∀ (b : TextToVoiceDesignVoiceBuilder) (v : Float),
      (b.set_prompt_strength v).prompt_strength = some v ∧
      (b.set_prompt_strength v).client = b.client ∧
      (b.set_prompt_strength v).voice_description = b.voice_description ∧
      (b.set_prompt_strength v).output_format = b.output_format ∧
      (b.set_prompt_strength v).model_id = b.model_id ∧
      (b.set_prompt_strength v).text = b.text ∧
      (b.set_prompt_strength v).auto_generate_text = b.auto_generate_text ∧
      (b.set_prompt_strength v).loudness = b.loudness ∧
      (b.set_prompt_strength v).seed = b.seed ∧
      (b.set_prompt_strength v).guidance_scale = b.guidance_scale ∧
      (b.set_prompt_strength v).stream_previews = b.stream_previews ∧
      (b.set_prompt_strength v).remixing_session_id = b.remixing_session_id ∧
      (b.set_prompt_strength v).remixing_session_iteration_id = b.remixing_session_iteration_id ∧
      (b.set_prompt_strength v).quality = b.quality ∧
      (b.set_prompt_strength v).reference_audio_base64 = b.reference_audio_base64) ∧
    (∀ (b : TextToVoiceCreateVoiceBuilder) (v : String),
      (b.set_labels v).labels = some v ∧
      (b.set_labels v).client = b.client ∧
      (b.set_labels v).voice_name = b.voice_name ∧
      (b.set_labels v).voice_description = b.voice_description ∧
      (b.set_labels v).generated_voice_id = b.generated_voice_id ∧
      (b.set_labels v).played_not_selected_voice_ids = b.played_not_selected_voice_ids) ∧
    (∀ (b : TextToVoiceCreateVoiceBuilder) (v : String),
      (b.set_played_not_selected_voice_ids v).played_not_selected_voice_ids = some v ∧
      (b.set_played_not_selected_voice_ids v).client = b.client ∧
      (b.set_played_not_selected_voice_ids v).voice_name = b.voice_name ∧
      (b.set_played_not_selected_voice_ids v).voice_description = b.voice_description ∧
      (b.set_played_not_selected_voice_ids v).generated_voice_id = b.generated_voice_id ∧
      (b.set_played_not_selected_voice_ids v).labels = b.labels) :=
  ⟨fun b v => ⟨rfl, rfl, rfl, rfl, rfl, rfl, rfl, rfl, rfl, rfl, rfl, rfl, rfl, rfl, rfl⟩,
   fun b v => ⟨rfl, rfl, rfl, rfl, rfl, rfl, rfl, rfl, rfl, rfl, rfl, rfl, rfl, rfl, rfl⟩,
   fun b v => ⟨rfl, rfl, rfl, rfl, rfl, rfl, rfl, rfl, rfl, rfl, rfl, rfl, rfl, rfl, rfl⟩,
   fun b v => ⟨rfl, rfl, rfl, rfl, rfl, rfl, rfl, rfl, rfl, rfl, rfl, rfl, rfl, rfl, rfl⟩,
   fun b v => ⟨rfl, rfl, rfl, rfl, rfl, rfl, rfl, rfl, rfl, rfl, rfl, rfl, rfl, rfl, rfl⟩,
   fun b v => ⟨rfl, rfl, rfl, rfl, rfl, rfl, rfl, rfl, rfl, rfl, rfl, rfl, rfl, rfl, rfl⟩,
   fun b v => ⟨rfl, rfl, rfl, rfl, rfl, rfl, rfl, rfl, rfl, rfl, rfl, rfl, rfl, rfl, rfl⟩,
   fun b v => ⟨rfl, rfl, rfl, rfl, rfl, rfl, rfl, rfl, rfl, rfl, rfl, rfl, rfl, rfl, rfl⟩,
   fun b v => ⟨rfl, rfl, rfl, rfl, rfl, rfl, rfl, rfl, rfl, rfl, rfl, rfl, rfl, rfl, rfl⟩,
   fun b v => ⟨rfl, rfl, rfl, rfl, rfl, rfl, rfl, rfl, rfl, rfl, rfl, rfl, rfl, rfl, rfl⟩,
   fun b v => ⟨rfl, rfl, rfl, rfl, rfl, rfl, rfl, rfl, rfl, rfl, rfl, rfl, rfl, rfl, rfl⟩,
   fun b v => ⟨rfl, rfl, rfl, rfl, rfl, rfl, rfl, rfl, rfl, rfl, rfl, rfl, rfl, rfl, rfl⟩,
   fun b v => ⟨rfl, rfl, rfl, rfl, rfl, rfl, rfl, rfl, rfl, rfl, rfl, rfl, rfl, rfl, rfl⟩,
   fun b v => ⟨rfl, rfl, rfl, rfl, rfl, rfl⟩,
   fun b v => ⟨rfl, rfl, rfl, rfl, rfl, rfl⟩⟩

/-- Claim C6, amended: in the serialized outbound JSON payload, an optional
field that was never set is serialized as JSON `null` under its key — the
key is present, not omitted — for every optional body field of both request
types; only Design Voice's `output_format` (which carries
`#[serde(skip_serializing)]`) is omitted from the body entirely. In
particular a create-voice call with no labels produces JSON with
`"labels": null`. -/
theorem C6_unset_optional_fields_serialize_null :
    (∀ r : TTVDesignVoiceRequest, "output_format" ∉ r.serialize.map Prod.fst) ∧
    (∀ r : TTVDesignVoiceRequest, r.model_id = none → ("model_id", Json.null) ∈ r.serialize) ∧
    (∀ r : TTVDesignVoiceRequest, r.text = none → ("text", Json.null) ∈ r.serialize) ∧
    (∀ r : TTVDesignVoiceRequest, r.auto_generate_text = none → ("auto_generate_text", Json.null) ∈ r.serialize) ∧
    (∀ r : TTVDesignVoiceRequest, r.loudness = none → ("loudness", Json.null) ∈ r.serialize) ∧
    (∀ r : TTVDesignVoiceRequest, r.seed = none → ("seed", Json.null) ∈ r.serialize) ∧
    (∀ r : TTVDesignVoiceRequest, r.guidance_scale = none → ("guidance_scale", Json.null) ∈ r.serialize) ∧
    (∀ r : TTVDesignVoiceRequest, r.stream_previews = none → ("stream_previews", Json.null) ∈ r.serialize) ∧
    (∀ r : TTVDesignVoiceRequest, r.remixing_session_id = none → ("remixing_session_id", Json.null) ∈ r.serialize) ∧
    (∀ r : TTVDesignVoiceRequest, r.remixing_session_iteration_id = none → ("remixing_session_iteration_id", Json.null) ∈ r.serialize) ∧
    (∀ r : TTVDesignVoiceRequest, r.quality = none → ("quality", Json.null) ∈ r.serialize) ∧
    (∀ r : TTVDesignVoiceRequest, r.reference_audio_base64 = none → ("reference_audio_base64", Json.null) ∈ r.serialize) ∧
    (∀ r : TTVDesignVoiceRequest, r.prompt_strength = none → ("prompt_strength", Json.null) ∈ r.serialize) ∧
    (∀ r : TTVCreateVoiceRequest, r.labels = none → ("labels", Json.null) ∈ r.serialize) ∧
    (∀ r : TTVCreateVoiceRequest, r.played_not_selected_voice_ids = none → ("played_not_selected_voice_ids", Json.null) ∈ r.serialize) :=
  ⟨fun r => by cases r; simp [TTVDesignVoiceRequest.serialize],
   fun r h => by cases r; subst h; simp [TTVDesignVoiceRequest.serialize, optStr, optBool, optNat, optFloat],
   fun r h => by cases r; subst h; simp [TTVDesignVoiceRequest.serialize, optStr, optBool, optNat, optFloat],
   fun r h => by cases r; subst h; simp [TTVDesignVoiceRequest.serialize, optStr, optBool, optNat, optFloat],
   fun r h => by cases r; subst h; simp [TTVDesignVoiceRequest.serialize, optStr, optBool, optNat, optFloat],
   fun r h => by cases r; subst h; simp [TTVDesignVoiceRequest.serialize, optStr, optBool, optNat, optFloat],
   fun r h => by cases r; subst h; simp [TTVDesignVoiceRequest.serialize, optStr, optBool, optNat, optFloat],
   fun r h => by cases r; subst h; simp [TTVDesignVoiceRequest.serialize, optStr, optBool, optNat, optFloat],
   fun r h => by cases r; subst h; simp [TTVDesignVoiceRequest.serialize, optStr, optBool, optNat, optFloat],
   fun r h => by cases r; subst h; simp [TTVDesignVoiceRequest.serialize, optStr, optBool, optNat, optFloat],
   fun r h => by cases r; subst h; simp [TTVDesignVoiceRequest.serialize, optStr, optBool, optNat, optFloat],
   fun r h => by cases r; subst h; simp [TTVDesignVoiceRequest.serialize, optStr, optBool, optNat, optFloat],
   fun r h => by cases r; subst h; simp [TTVDesignVoiceRequest.serialize, optStr, optBool, optNat, optFloat],
   fun r h => by cases r; subst h; simp [TTVCreateVoiceRequest.serialize, optStr],
   fun r h => by cases r; subst h; simp [TTVCreateVoiceRequest.serialize, optStr]⟩


/-- Claim C3: the Design Voice builder's finalization defaults
`auto_generate_text`: unset text and unset auto_generate_text give
`some true`; set text with unset auto_generate_text leaves it unset; an
explicitly set value is kept as-is. -/
theorem C3_auto_generate_text_default :
    ∀ b : TextToVoiceDesignVoiceBuilder,
      (b.text = none → b.auto_generate_text = none →
        b.executeRequest.auto_generate_text = some true) ∧
      (∀ s, b.text = some s → b.auto_generate_text = none →
        b.executeRequest.auto_generate_text = none) ∧
      (∀ v, b.auto_generate_text = some v →
        b.executeRequest.auto_generate_text = some v) := by
  intro b
  refine ⟨?_, ?_, ?_⟩
  · intro h1 h2
    simp [TextToVoiceDesignVoiceBuilder.executeRequest, h1, h2, Option.or]
  · intro s h1 h2
    simp [TextToVoiceDesignVoiceBuilder.executeRequest, h1, h2, Option.or]
  · intro v h
    simp [TextToVoiceDesignVoiceBuilder.executeRequest, h, Option.or]

/-- Claim C3, witness: the three defaulting cases at concrete builders. -/
theorem C3_auto_generate_text_default_witness :
    ((ElevenLabsTTVClient.new "k").design_voice "X").executeRequest.auto_generate_text =
      some true ∧
    (((ElevenLabsTTVClient.new "k").design_voice "X").set_text "T").executeRequest.auto_generate_text =
      none ∧
    (((ElevenLabsTTVClient.new "k").design_voice "X").set_auto_generate_text false).executeRequest.auto_generate_text =
      some false :=
  ⟨(C3_auto_generate_text_default _).1 rfl rfl,
   (C3_auto_generate_text_default _).2.1 "T" rfl rfl,
   (C3_auto_generate_text_default _).2.2 false rfl⟩

/-- Claim C4: a Design Voice builder finalized without overrides produces
exactly `loudness = some 0.5`, `guidance_scale = some 5`,
`stream_previews = some false`, `model_id = some ELEVEN_MULTILINGUAL_TTV_V2`;
the outgoing URL carries `output_format=mp3_44100_128` as a query
parameter, and `output_format` is omitted from the serialized JSON body. -/
theorem C4_design_defaults :
    ∀ (c : ElevenLabsTTVClient) (b : TextToVoiceDesignVoiceBuilder),
      b.loudness = none → b.guidance_scale = none → b.stream_previews = none →
      b.model_id = none → b.output_format = none →
      b.executeRequest.loudness = some 0.5 ∧
      b.executeRequest.guidance_scale = some 5 ∧
      b.executeRequest.stream_previews = some false ∧
      b.executeRequest.model_id = some elevanlabs_models.ELEVEN_MULTILINGUAL_TTV_V2 ∧
      c.designVoiceUrl b.executeRequest =
        c.base_url ++ "/text-to-voice/design?output_format=mp3_44100_128" ∧
      "output_format" ∉ b.executeRequest.serialize.map Prod.fst := by
  intro c b h1 h2 h3 h4 h5
  refine ⟨?_, ?_, ?_, ?_, ?_, ?_⟩
  · simp [TextToVoiceDesignVoiceBuilder.executeRequest, h1, Option.or]
  · simp [TextToVoiceDesignVoiceBuilder.executeRequest, h2, Option.or]
  · simp [TextToVoiceDesignVoiceBuilder.executeRequest, h3, Option.or]
  · simp [TextToVoiceDesignVoiceBuilder.executeRequest, h4, Option.getD]
  · simp only [ElevenLabsTTVClient.designVoiceUrl,
      TextToVoiceDesignVoiceBuilder.executeRequest, Option.getD]
    rw [String.append_assoc, String.append_assoc]
    rfl
  · simp [TextToVoiceDesignVoiceBuilder.executeRequest, TTVDesignVoiceRequest.serialize]

/-- Claim C4, witness: the defaults at a concrete client and builder with no
overrides. -/
theorem C4_design_defaults_witness :
    ((ElevenLabsTTVClient.new "k").design_voice "X").executeRequest.loudness = some 0.5 ∧
    ((ElevenLabsTTVClient.new "k").design_voice "X").executeRequest.guidance_scale = some 5 ∧
    ((ElevenLabsTTVClient.new "k").design_voice "X").executeRequest.stream_previews = some false ∧
    ((ElevenLabsTTVClient.new "k").design_voice "X").executeRequest.model_id =
      some elevanlabs_models.ELEVEN_MULTILINGUAL_TTV_V2 ∧
    (ElevenLabsTTVClient.new "k").designVoiceUrl
      ((ElevenLabsTTVClient.new "k").design_voice "X").executeRequest =
      (ElevenLabsTTVClient.new "k").base_url ++
        "/text-to-voice/design?output_format=mp3_44100_128" ∧
    "output_format" ∉
      ((ElevenLabsTTVClient.new "k").design_voice "X").executeRequest.serialize.map Prod.fst :=
  C4_design_defaults (ElevenLabsTTVClient.new "k")
    ((ElevenLabsTTVClient.new "k").design_voice "X") rfl rfl rfl rfl rfl

/-- Claim C5: evaluation at the failing input. Setting `output_format` to
`"pcm_16000"` stores the value in the builder, but the finalized request
carries `output_format = none` — `execute` hardcodes `output_format: None`,
discarding the builder's value — so the request URL uses the default
`mp3_44100_128` instead of the explicitly set format, violating the
round-trip property for this field. -/
theorem C5_output_format_discarded :
    (((ElevenLabsTTVClient.new "k").design_voice "d").set_output_format "pcm_16000").output_format =
      some "pcm_16000" ∧
    (((ElevenLabsTTVClient.new "k").design_voice "d").set_output_format "pcm_16000").executeRequest.output_format =
      none ∧
    (ElevenLabsTTVClient.new "k").designVoiceUrl
      (((ElevenLabsTTVClient.new "k").design_voice "d").set_output_format "pcm_16000").executeRequest =
      "https://api.elevenlabs.io/v1/text-to-voice/design?output_format=mp3_44100_128" :=
  ⟨rfl, rfl, rfl⟩

/-- Claim C6, counterexample: a create-voice call with generated_voice_id
`"abc123"` and no labels serializes with the `labels` key present and bound
to JSON `null` — not omitted from the payload as claimed. -/
theorem C6_counterexample :
    ("labels", Json.null) ∈ sampleCreateRequest.serialize :=
  List.Mem.tail _ (List.Mem.tail _ (List.Mem.tail _ (List.Mem.head _)))

/-- Claim C6, witness: the amended statement at the concrete create-voice
request with no labels and at a concrete design request with no seed. -/
theorem C6_unset_optional_fields_serialize_null_witness :
    ("labels", Json.null) ∈ sampleCreateRequest.serialize ∧
    ("seed", Json.null) ∈ sampleDesignRequest.serialize :=
  ⟨C6_unset_optional_fields_serialize_null.2.2.2.2.2.2.2.2.2.2.2.2.2.1
      sampleCreateRequest rfl,
   C6_unset_optional_fields_serialize_null.2.2.2.2.2.1 sampleDesignRequest rfl⟩

/-- Claim C7: on a success (2xx) status whose body fails to decode, both
execute methods return `ParseError` wrapping the decode error — never an
`ApiError` and never a defaulted value. -/
theorem C7_parse_failure :
    ∀ (c : ElevenLabsTTVClient),
      (∀ (req : TTVDesignVoiceRequest) (r : HttpResponse TTVDesignVoiceResponse)
          (e : ReqwestError),
        statusIsSuccess r.status = true → r.decoded = Except.error e →
        c.execute_design_voice req (SendOutcome.success r) =
          Except.error (ElevenLabsTTVError.ParseError e)) ∧
      (∀ (req : TTVCreateVoiceRequest) (r : HttpResponse TTVCreateVoiceResponse)
          (e : ReqwestError),
        statusIsSuccess r.status = true → r.decoded = Except.error e →
        c.execute_create_voice req (SendOutcome.success r) =
          Except.error (ElevenLabsTTVError.ParseError e)) := by
  intro c
  constructor
  · intro req r e h1 h2
    simp [ElevenLabsTTVClient.execute_design_voice, h1, h2]
  · intro req r e h1 h2
    simp [ElevenLabsTTVClient.execute_create_voice, h1, h2]

/-- Claim C7, witness: a 200 response whose body fails to decode, for both
endpoints. -/
theorem C7_parse_failure_witness :
    (ElevenLabsTTVClient.new "k").execute_design_voice sampleDesignRequest
      (SendOutcome.success ⟨200, none, some "not the expected shape", Except.error sampleDecodeErr⟩) =
      Except.error (ElevenLabsTTVError.ParseError sampleDecodeErr) ∧
    (ElevenLabsTTVClient.new "k").execute_create_voice sampleCreateRequest
      (SendOutcome.success ⟨200, none, some "not the expected shape", Except.error sampleDecodeErr⟩) =
      Except.error (ElevenLabsTTVError.ParseError sampleDecodeErr) :=
  ⟨(C7_parse_failure _).1 sampleDesignRequest _ _ (by decide) rfl,
   (C7_parse_failure _).2 sampleCreateRequest _ _ (by decide) rfl⟩

/-- Claim C10: on a non-2xx response whose body text cannot be read, both
execute methods return `ApiError` carrying the response's status and the
empty string as message (`unwrap_or_default`). -/
theorem C10_empty_message_on_body_read_failure :
    ∀ (c : ElevenLabsTTVClient),
      (∀ (req : TTVDesignVoiceRequest) (r : HttpResponse TTVDesignVoiceResponse),
        statusIsSuccess r.status = false → r.bodyText = none →
        c.execute_design_voice req (SendOutcome.success r) =
          Except.error (ElevenLabsTTVError.ApiError r.status "")) ∧
      (∀ (req : TTVCreateVoiceRequest) (r : HttpResponse TTVCreateVoiceResponse),
        statusIsSuccess r.status = false → r.bodyText = none →
        c.execute_create_voice req (SendOutcome.success r) =
          Except.error (ElevenLabsTTVError.ApiError r.status "")) := by
  intro c
  constructor
  · intro req r h1 h2
    simp [ElevenLabsTTVClient.execute_design_voice, h1, h2]
  · intro req r h1 h2
    simp [ElevenLabsTTVClient.execute_create_voice, h1, h2]

/-- Claim C10, witness: a 500 response whose body read fails, for both
endpoints. -/
theorem C10_empty_message_on_body_read_failure_witness :
    (ElevenLabsTTVClient.new "k").execute_design_voice sampleDesignRequest
      (SendOutcome.success ⟨500, none, none, Except.error sampleDecodeErr⟩) =
      Except.error (ElevenLabsTTVError.ApiError 500 "") ∧
    (ElevenLabsTTVClient.new "k").execute_create_voice sampleCreateRequest
      (SendOutcome.success ⟨500, none, none, Except.error sampleDecodeErr⟩) =
      Except.error (ElevenLabsTTVError.ApiError 500 "") :=
  ⟨(C10_empty_message_on_body_read_failure _).1 sampleDesignRequest _ (by decide) rfl,
   (C10_empty_message_on_body_read_failure _).2 sampleCreateRequest _ (by decide) rfl⟩

end ElevenLabsTTV
